import Mathlib

/-!
Verification of the core row-to-KML transformation of
`src/adequacaoequatorial.py` (function `main`, lines 36-100).

The embedding models:
* spreadsheet cells as read by `pandas.read_excel` (`Cell`);
* Python `float(...)` conversion, which strips whitespace, accepts an
  optional sign, decimal mantissa with optional exponent, and the special
  tokens `inf` / `infinity` / `nan` (case-insensitive), and which maps a
  pandas-missing cell (a float NaN) to NaN without raising (`parsePyFloat`,
  `cellFloat`);
* the per-row field extraction with its fallbacks (`extractRecord`,
  mirroring lines 60-71);
* the folder-grouping loop over rows (`addRecord`, `processRows`,
  `buildDoc`, mirroring lines 49-95);
* the XML tree that the loop assembles (`recordXML`, `folderXML`,
  `kmlXML`) and its deterministic pretty-printed serialization
  (`serializeKML`, mirroring lines 98-100);
* the column-count guard of line 36 (`convert`).

Machine floats are represented by `PyFloat`: a finite value carries an
exact rational (decimal literals denote rationals; none of the proved
properties depends on IEEE-754 rounding), and NaN / +inf / -inf are
explicit constructors.  `pyFloatRepr` is a deterministic stand-in for
Python's shortest round-trip float formatting: the claims only constrain
the order of the two coordinates and the fixed `,0` suffix, never the
digit sequence of a float.
-/

/-- A spreadsheet cell as produced by `pandas.read_excel`:
`na` is a missing cell (pandas stores it as a float NaN, so `pd.notna`
is false on it), `str` a text cell, `num` a (finite) numeric cell. -/
inductive Cell where
  | na : Cell
  | str : String → Cell
  | num : ℚ → Cell
deriving DecidableEq, Repr

/-- A Python float value: finite (exact rational model), NaN, +inf, -inf. -/
inductive PyFloat where
  | finite : ℚ → PyFloat
  | nan : PyFloat
  | inf : PyFloat
  | ninf : PyFloat
deriving DecidableEq, Repr

/-- Is this character whitespace for Python `float` stripping? -/
def isSpaceChar (c : Char) : Bool :=
  c = ' ' ∨ c = '\t' ∨ c = '\n' ∨ c = '\r' ∨ c.toNat = 11 ∨ c.toNat = 12

/-- Strip leading and trailing whitespace from a character list. -/
def trimChars (l : List Char) : List Char :=
  (((l.dropWhile isSpaceChar).reverse).dropWhile isSpaceChar).reverse

/-- Lowercase every character. -/
def lowerChars (l : List Char) : List Char :=
  l.map Char.toLower

/-- Numeric value of a digit list (assumes all characters are digits). -/
def natOfDigits (l : List Char) : ℕ :=
  l.foldl (fun n c => 10 * n + (c.toNat - 48)) 0

/-- Split a character list on a separator character (semantics of
`str.split(sep)` for a one-character separator: the empty list splits
to one empty piece). -/
def splitOnChar (c : Char) : List Char → List (List Char)
  | [] => [[]]
  | x :: xs =>
      let r := splitOnChar c xs
      if x = c then [] :: r
      else
        match r with
        | [] => [[x]]
        | h :: t => (x :: h) :: t

/-- Parse an unsigned decimal mantissa (`123`, `123.`, `.45`, `12.5`):
digits with at most one dot and at least one digit overall. -/
def parseMantissa (l : List Char) : Option ℚ :=
  match splitOnChar '.' l with
  | [a] =>
      if 0 < a.length ∧ a.all Char.isDigit then some (natOfDigits a : ℚ) else none
  | [a, b] =>
      if 0 < a.length + b.length ∧ a.all Char.isDigit ∧ b.all Char.isDigit then
        some ((natOfDigits a : ℚ) + mkRat (natOfDigits b) (10 ^ b.length))
      else none
  | _ => none

/-- Split an optional leading sign: returns (isNegative, rest). -/
def splitSign : List Char → Bool × List Char
  | '-' :: r => (true, r)
  | '+' :: r => (false, r)
  | l => (false, l)

/-- Parse a signed decimal exponent part (after `e`/`E`). -/
def parseExponent (l : List Char) : Option ℤ :=
  let p := splitSign l
  if 0 < p.2.length ∧ p.2.all Char.isDigit then
    some (if p.1 then -(natOfDigits p.2 : ℤ) else (natOfDigits p.2 : ℤ))
  else none

/-- Python `float(string)`: strip surrounding whitespace, optional sign,
then either `inf`/`infinity`/`nan` (case-insensitive) or a decimal
mantissa with optional `e`-exponent.  Returns `none` when Python would
raise `ValueError`. -/
def parsePyFloat (s : String) : Option PyFloat :=
  let p := splitSign (trimChars s.data)
  let r := lowerChars p.2
  if r = ['i', 'n', 'f'] ∨ r = ['i', 'n', 'f', 'i', 'n', 'i', 't', 'y'] then
    some (if p.1 then .ninf else .inf)
  else if r = ['n', 'a', 'n'] then some .nan
  else
    match splitOnChar 'e' r with
    | [m] => (parseMantissa m).map fun q => .finite (if p.1 then -q else q)
    | [m, e] =>
        match parseMantissa m, parseExponent e with
        | some q, some ex =>
            some (.finite ((if p.1 then -q else q) * (10 : ℚ) ^ ex))
        | _, _ => none
    | _ => none

/-- Python `float(cell)` for a raw pandas cell value (lines 68-69):
a missing cell is a float NaN, so `float` succeeds and yields NaN;
a numeric cell is already a (finite) float; a text cell goes through
string parsing and may raise (`none`). -/
def cellFloat : Cell → Option PyFloat
  | .na => some .nan
  | .num q => some (.finite q)
  | .str s => parsePyFloat s

/-- Deterministic stand-in for Python float formatting (`repr`/`str` of a
float, used by `str(cell)` and the f-string of line 95).  Exact digits of
Python's shortest round-trip rendering are not modelled; every proved
property is independent of them. -/
def pyFloatRepr : PyFloat → String
  | .finite q => if q.den = 1 then toString q.num ++ ".0"
                 else toString q.num ++ "/" ++ toString q.den
  | .nan => "nan"
  | .inf => "inf"
  | .ninf => "-inf"

/-- `pd.notna(cell)`: false exactly on a missing cell. -/
def pdNotna : Cell → Bool
  | .na => false
  | _ => true

/-- Python `str(cell)` for a raw pandas cell value. -/
def cellStr : Cell → String
  | .na => "nan"
  | .str s => s
  | .num q => pyFloatRepr (.finite q)

/-- `row.iloc[i]`: cell at position `i`.  A pandas row of a table with
`n ≥ 9` columns always has a cell at indices 0-8 (missing spreadsheet
cells are NaN), which the default `.na` mirrors. -/
def cellAt (row : List Cell) (i : ℕ) : Cell :=
  row.getD i Cell.na

/-- A validated point record, as assembled by lines 60-71 for a row whose
coordinates convert successfully. -/
structure PointRecord where
  nome : String
  lat : PyFloat
  lon : PyFloat
  folderName : String
  description : String
deriving DecidableEq, Repr

/-- Extraction of one row (lines 60-71): positional fields with fallbacks
(`Ponto_<index+1>` for a missing name, `Geral` for a missing folder,
`""` for a missing description), then `float` conversion of the raw
latitude and longitude cells; `none` when either conversion raises
(the `continue` of line 71). -/
def extractRecord (index : ℕ) (row : List Cell) : Option PointRecord :=
  let nome := if pdNotna (cellAt row 1) then cellStr (cellAt row 1)
              else s!"Ponto_{index + 1}"
  let folderName := if pdNotna (cellAt row 5) then cellStr (cellAt row 5)
                    else "Geral"
  let description := if pdNotna (cellAt row 8) then cellStr (cellAt row 8)
                     else ""
  match cellFloat (cellAt row 2), cellFloat (cellAt row 3) with
  | some lat, some lon => some ⟨nome, lat, lon, folderName, description⟩
  | _, _ => none

/-- A folder: its name and its placemark records in insertion order. -/
structure Folder where
  name : String
  records : List PointRecord
deriving DecidableEq, Repr

/-- The document body: folders in creation order (the children that the
loop appends under the `Document` element, together with the `folders`
dict keyed by name). -/
abbrev Doc := List Folder

/-- Lines 74-81: the `folders` dict keyed by folder name, modelled as an
association list.  If no folder with this record's folder name exists
(exact, case-sensitive string match, the dict lookup of line 74), a new
folder is appended at the end (dict insertion order = `Document` child
order); then the placemark is appended to that folder. -/
def addRecord : Doc → PointRecord → Doc
  | [], r => [⟨r.folderName, [r]⟩]
  | f :: fs, r =>
      if f.name = r.folderName then
        { f with records := f.records ++ [r] } :: fs
      else
        f :: addRecord fs r

/-- The row loop of lines 53-95: the row index advances on every row;
a row whose coordinates fail to convert is skipped (`continue`) and
leaves the document untouched. -/
def processRows (index : ℕ) (rows : List (List Cell)) (doc : Doc) : Doc :=
  match rows with
  | [] => doc
  | row :: rest =>
      match extractRecord index row with
      | some r => processRows (index + 1) rest (addRecord doc r)
      | none => processRows (index + 1) rest doc

/-- The document built from all rows of the table (loop started at row
index 0 with no folders). -/
def buildDoc (rows : List (List Cell)) : Doc :=
  processRows 0 rows []

/-- The sequence of validated records in row order (what the loop feeds
into the folder-grouping, with skipped rows absent). -/
def extractedRecords (index : ℕ) : List (List Cell) → List PointRecord
  | [] => []
  | row :: rest =>
      match extractRecord index row with
      | some r => r :: extractedRecords (index + 1) rest
      | none => extractedRecords (index + 1) rest

/-- One step of first-seen accumulation: record a string the first time
it appears. -/
def seenStep (acc : List String) (s : String) : List String :=
  if s ∈ acc then acc else acc ++ [s]

/-- First-seen order of distinct strings (the key order of a Python dict
populated by first insertion). -/
def firstSeen (l : List String) : List String :=
  l.foldl seenStep []

/-- Specification view of the folder grouping: one folder per distinct
folder name in first-seen order, holding the records with that folder
name in input order. -/
def groupByFolder (recs : List PointRecord) : Doc :=
  (firstSeen (recs.map PointRecord.folderName)).map
    fun n => ⟨n, recs.filter fun r => r.folderName = n⟩

/-- Total number of placemark records across all folders. -/
def totalRecords (doc : Doc) : ℕ :=
  (doc.map fun f => f.records.length).sum

/-- Does the row survive coordinate conversion (both `float` calls of
lines 68-69 succeed)? -/
def coordsParse (row : List Cell) : Bool :=
  (cellFloat (cellAt row 2)).isSome && (cellFloat (cellAt row 3)).isSome

/-- Does the cell convert to a *finite* float (the spec's "parses as a
finite decimal number")?  False on missing cells (NaN) and on the strings
`nan` / `inf` / `infinity`, which Python `float` nevertheless accepts. -/
def parsesFinite (c : Cell) : Bool :=
  match cellFloat c with
  | some (.finite _) => true
  | _ => false

/-- An XML element (the fragment of `xml.etree.ElementTree` the program
uses): tag, attributes, optional text, child elements. -/
inductive XML where
  | elem : String → List (String × String) → Option String → List XML → XML
deriving Repr

/-- Tag of an element. -/
def XML.tag : XML → String
  | .elem t _ _ _ => t

/-- Child elements of an element. -/
def XML.children : XML → List XML
  | .elem _ _ _ c => c

/-- Text of an element. -/
def XML.text : XML → Option String
  | .elem _ _ txt _ => txt

/-- The `Placemark` element built for one record (lines 81-95): a `name`
child, a `description` child only when the description string is truthy
(non-empty), and a `Point` child holding `coordinates` whose text is
`"{lon},{lat},0"`. -/
def recordXML (r : PointRecord) : XML :=
  .elem "Placemark" [] none
    ([XML.elem "name" [] (some r.nome) []]
      ++ (if r.description = "" then []
          else [XML.elem "description" [] (some r.description) []])
      ++ [XML.elem "Point" [] none
            [XML.elem "coordinates" []
              (some s!"{pyFloatRepr r.lon},{pyFloatRepr r.lat},0") []]])

/-- The `Folder` element for one folder (lines 75-78 plus the placemarks
appended into it): a `name` child first, then the placemarks in
insertion order. -/
def folderXML (f : Folder) : XML :=
  .elem "Folder" [] none
    (XML.elem "name" [] (some f.name) [] :: f.records.map recordXML)

/-- The whole tree (lines 45-46): `kml` root with the KML 2.2 namespace
attribute and a single `Document` child holding the folders. -/
def kmlXML (doc : Doc) : XML :=
  .elem "kml" [("xmlns", "http://www.opengis.net/kml/2.2")] none
    [.elem "Document" [] none (doc.map folderXML)]

/-- XML text escaping applied by the serializer to text nodes. -/
def escapeXML (s : String) : String :=
  ((s.replace "&" "&amp;").replace "<" "&lt;").replace ">" "&gt;"

/-- Attribute rendering: ` key="value"` for each attribute. -/
def attrsText (attrs : List (String × String)) : String :=
  attrs.foldl (fun acc p => acc ++ " " ++ p.1 ++ "=\x22" ++ escapeXML p.2 ++ "\x22") ""

mutual

/-- Pretty-printer modelling `minidom.toprettyxml(indent="  ")` on the
trees this program builds (an element has either text or children, never
both): an element with neither is self-closed, text-only elements are
written on one line, children are indented by two further spaces. -/
def ppXML (ind : String) : XML → String
  | .elem tag attrs txt children =>
      match txt, children with
      | some t, [] =>
          ind ++ "<" ++ tag ++ attrsText attrs ++ ">" ++ escapeXML t
            ++ "</" ++ tag ++ ">\n"
      | none, [] => ind ++ "<" ++ tag ++ attrsText attrs ++ "/>\n"
      | _, _ =>
          ind ++ "<" ++ tag ++ attrsText attrs ++ ">\n"
            ++ ppChildren (ind ++ "  ") children
            ++ ind ++ "</" ++ tag ++ ">\n"

/-- Pretty-print a list of sibling elements. -/
def ppChildren (ind : String) : List XML → String
  | [] => ""
  | x :: xs => ppXML ind x ++ ppChildren ind xs

end

/-- Serialization of the accumulated document (lines 98-100): XML
declaration followed by the pretty-printed tree. -/
def serializeKML (doc : Doc) : String :=
  "<?xml version=\x221.0\x22 ?>\n" ++ ppXML "" (kmlXML doc)

/-- The input table: its column count and its data rows (every pandas
row carries one cell per column, missing spreadsheet cells being NaN). -/
structure Table where
  numCols : ℕ
  rows : List (List Cell)

/-- Error message of line 37. -/
def insufficientColumnsMsg : String :=
  "O arquivo Excel nao tem colunas suficientes! Precisa ter pelo menos 9 colunas."

/-- The guarded conversion (lines 36-100): a table with fewer than 9
columns is rejected before any row is examined and produces no document;
otherwise the serialized KML text is produced. -/
def convert (t : Table) : Except String String :=
  if t.numCols < 9 then .error insufficientColumnsMsg
  else .ok (serializeKML (buildDoc t.rows))

/-! ### Concrete sample inputs for witnesses and counterexamples

A sample row is a list of 9 cells (spreadsheet columns A-I); only the
cells the program reads (indices 1, 2, 3, 5, 8) carry payloads. -/

/-- Two-row table: one row with parsable coordinates, one with an
unparsable latitude. -/
def c1Table : Table :=
  ⟨9, [[Cell.na, Cell.str "A", Cell.str "1", Cell.str "2", Cell.na,
        Cell.str "SP", Cell.na, Cell.na, Cell.na],
       [Cell.na, Cell.str "B", Cell.str "N/A", Cell.str "2", Cell.na,
        Cell.str "SP", Cell.na, Cell.na, Cell.na]]⟩

/-- Three rows with folder names SP, RJ, SP. -/
def c2Rows : List (List Cell) :=
  [[Cell.na, Cell.str "A", Cell.str "1", Cell.str "2", Cell.na,
    Cell.str "SP", Cell.na, Cell.na, Cell.na],
   [Cell.na, Cell.str "B", Cell.str "3", Cell.str "4", Cell.na,
    Cell.str "RJ", Cell.na, Cell.na, Cell.na],
   [Cell.na, Cell.str "C", Cell.str "5", Cell.str "6", Cell.na,
    Cell.str "SP", Cell.na, Cell.na, Cell.na]]

/-- The folder "SP" as built from `c2Rows`: rows 1 and 3 in input order. -/
def c2FolderSP : Folder :=
  ⟨"SP", [⟨"A", .finite 1, .finite 2, "SP", ""⟩,
          ⟨"C", .finite 5, .finite 6, "SP", ""⟩]⟩

/-- Row whose latitude cell holds the text "nan": not a finite decimal
number, yet Python `float` accepts it. -/
def c3Row : List Cell :=
  [Cell.na, Cell.str "P", Cell.str "nan", Cell.str "1.0", Cell.na,
   Cell.str "F", Cell.na, Cell.na, Cell.na]

/-- Row whose latitude is the text "N/A" (conversion raises) and whose
folder name is previously unseen. -/
def c3SkipRow : List Cell :=
  [Cell.na, Cell.str "Q", Cell.str "N/A", Cell.str "1", Cell.na,
   Cell.str "NovaPasta", Cell.na, Cell.na, Cell.na]

/-- Row with latitude 1 and longitude 2. -/
def c4Row : List Cell :=
  [Cell.na, Cell.str "PtA", Cell.str "1", Cell.str "2", Cell.na,
   Cell.str "SP", Cell.na, Cell.na, Cell.str "d"]

/-- The record extracted from `c4Row`. -/
def c4Rec : PointRecord :=
  ⟨"PtA", .finite 1, .finite 2, "SP", "d"⟩

/-- Three rows whose third has a missing name cell. -/
def c5Rows : List (List Cell) :=
  [[Cell.na, Cell.str "A", Cell.str "1", Cell.str "2", Cell.na,
    Cell.str "F", Cell.na, Cell.na, Cell.na],
   [Cell.na, Cell.str "B", Cell.str "1", Cell.str "2", Cell.na,
    Cell.str "F", Cell.na, Cell.na, Cell.na],
   [Cell.na, Cell.na, Cell.str "1", Cell.str "2", Cell.na,
    Cell.str "F", Cell.na, Cell.na, Cell.na]]

/-- A single row with a missing name cell (used at row index 2). -/
def c5Row : List Cell :=
  [Cell.na, Cell.na, Cell.str "1", Cell.str "2", Cell.na,
   Cell.str "F", Cell.na, Cell.na, Cell.na]

/-- The record extracted from `c5Row` at row index 2. -/
def c5Rec : PointRecord := ⟨"Ponto_3", .finite 1, .finite 2, "F", ""⟩

/-- Row with a missing folder-name cell. -/
def c6Row : List Cell :=
  [Cell.na, Cell.str "X", Cell.str "1", Cell.str "2", Cell.na,
   Cell.na, Cell.na, Cell.na, Cell.na]

/-- The record extracted from `c6Row`. -/
def c6Rec : PointRecord := ⟨"X", .finite 1, .finite 2, "Geral", ""⟩

/-- A table with only 5 columns. -/
def c7Table : Table := ⟨5, [[Cell.str "x", Cell.str "y"]]⟩

/-- A record with a non-empty description. -/
def c8Rec : PointRecord := ⟨"n", .nan, .nan, "f", "d"⟩

/-- Row with a missing description cell. -/
def c8Row : List Cell :=
  [Cell.na, Cell.str "B", Cell.str "1", Cell.str "2", Cell.na,
   Cell.str "RJ", Cell.na, Cell.na, Cell.na]

/-- The record extracted from `c8Row`. -/
def c8RecEmpty : PointRecord := ⟨"B", .finite 1, .finite 2, "RJ", ""⟩

/-- Ten-cell row: payloads at indices 1, 2, 3, 5, 8 and junk elsewhere. -/
def c10RowA : List Cell :=
  [Cell.str "junk0", Cell.str "N", Cell.str "1", Cell.str "2",
   Cell.str "junk4", Cell.str "FF", Cell.str "junk6", Cell.str "junk7",
   Cell.str "D", Cell.str "junk9"]

/-- Nine-cell row agreeing with `c10RowA` at indices 1, 2, 3, 5, 8 and
differing at indices 0, 4, 6, 7, 9. -/
def c10RowB : List Cell :=
  [Cell.num 7, Cell.str "N", Cell.str "1", Cell.str "2", Cell.na,
   Cell.str "FF", Cell.str "zz", Cell.na, Cell.str "D"]

/-! ### Infrastructure lemmas -/

theorem list_map_congr {α β : Type _} {l : List α} {f g : α → β}
    (h : ∀ a ∈ l, f a = g a) : l.map f = l.map g := by
  induction l with
  | nil => rfl
  | cons a l ih =>
      simp only [List.map_cons]
      rw [h a (List.mem_cons_self a l), ih fun b hb => h b (List.mem_cons_of_mem a hb)]

theorem extractRecord_isSome (index : ℕ) (row : List Cell) :
    (extractRecord index row).isSome = coordsParse row := by
  cases h2 : cellFloat (cellAt row 2) <;> cases h3 : cellFloat (cellAt row 3) <;>
    simp [extractRecord, coordsParse, h2, h3]

theorem totalRecords_cons (f : Folder) (fs : Doc) :
    totalRecords (f :: fs) = f.records.length + totalRecords fs := by
  simp [totalRecords]

theorem totalRecords_addRecord (doc : Doc) (r : PointRecord) :
    totalRecords (addRecord doc r) = totalRecords doc + 1 := by
  induction doc with
  | nil => rfl
  | cons f fs ih =>
      by_cases h : f.name = r.folderName
      · simp [addRecord, h, totalRecords_cons]
        omega
      · simp [addRecord, h, totalRecords_cons, ih]
        omega

theorem processRows_eq_foldl (rows : List (List Cell)) :
    ∀ (index : ℕ) (doc : Doc),
      processRows index rows doc = (extractedRecords index rows).foldl addRecord doc := by
  induction rows with
  | nil => intro index doc; rfl
  | cons row rest ih =>
      intro index doc
      cases h : extractRecord index row <;>
        simp [processRows, extractedRecords, h, ih]

theorem processRows_totalRecords (rows : List (List Cell)) :
    ∀ (index : ℕ) (doc : Doc),
      totalRecords (processRows index rows doc)
        = totalRecords doc + (rows.filter coordsParse).length := by
  induction rows with
  | nil => intro index doc; simp [processRows]
  | cons row rest ih =>
      intro index doc
      have hs := extractRecord_isSome index row
      cases h : extractRecord index row with
      | none =>
          rw [h] at hs
          simp [processRows, h, ih, List.filter_cons, ← hs]
      | some r =>
          rw [h] at hs
          simp [processRows, h, ih, List.filter_cons, ← hs, totalRecords_addRecord]
          omega

theorem mem_foldl_seenStep (l : List String) :
    ∀ (acc : List String) (a : String),
      a ∈ l.foldl seenStep acc ↔ a ∈ acc ∨ a ∈ l := by
  induction l with
  | nil => intro acc a; simp
  | cons s l ih =>
      intro acc a
      rw [List.foldl_cons, ih]
      by_cases h : s ∈ acc
      · simp only [seenStep, if_pos h, List.mem_cons]
        constructor
        · rintro (ha | hl)
          · exact Or.inl ha
          · exact Or.inr (Or.inr hl)
        · rintro (ha | rfl | hl)
          · exact Or.inl ha
          · exact Or.inl h
          · exact Or.inr hl
      · simp only [seenStep, if_neg h, List.mem_append, List.mem_cons,
          List.mem_singleton, List.not_mem_nil, or_false]
        tauto

theorem mem_firstSeen (l : List String) (a : String) :
    a ∈ firstSeen l ↔ a ∈ l := by
  unfold firstSeen
  rw [mem_foldl_seenStep]
  simp

theorem nodup_foldl_seenStep (l : List String) :
    ∀ acc : List String, acc.Nodup → (l.foldl seenStep acc).Nodup := by
  induction l with
  | nil => intro acc h; exact h
  | cons s l ih =>
      intro acc h
      rw [List.foldl_cons]
      apply ih
      by_cases hs : s ∈ acc
      · simpa [seenStep, hs] using h
      · simp [seenStep, hs, List.nodup_append, h]

theorem nodup_firstSeen (l : List String) : (firstSeen l).Nodup :=
  nodup_foldl_seenStep l [] List.nodup_nil

theorem firstSeen_append_single (l : List String) (s : String) :
    firstSeen (l ++ [s]) = seenStep (firstSeen l) s := by
  unfold firstSeen
  rw [List.foldl_append]
  rfl

theorem filter_eq_nil_of_not_mem (recs : List PointRecord) (n : String)
    (h : n ∉ recs.map PointRecord.folderName) :
    (recs.filter fun r => r.folderName = n) = [] := by
  induction recs with
  | nil => rfl
  | cons r rs ih =>
      simp only [List.map_cons, List.mem_cons, not_or] at h
      simp [List.filter_cons, ih h.2, Ne.symm h.1]

theorem names_groupByFolder (recs : List PointRecord) :
    (groupByFolder recs).map Folder.name
      = firstSeen (recs.map PointRecord.folderName) := by
  unfold groupByFolder
  rw [List.map_map]
  exact List.map_id' _

theorem addRecord_not_mem (doc : Doc) (r : PointRecord)
    (h : r.folderName ∉ doc.map Folder.name) :
    addRecord doc r = doc ++ [⟨r.folderName, [r]⟩] := by
  induction doc with
  | nil => rfl
  | cons f fs ih =>
      simp only [List.map_cons, List.mem_cons, not_or] at h
      have hne : ¬ f.name = r.folderName := fun he => h.1 he.symm
      simp [addRecord, hne, ih h.2]

theorem addRecord_mem_map (ns : List String) (g : String → List PointRecord)
    (r : PointRecord) (hn : ns.Nodup) (hm : r.folderName ∈ ns) :
    addRecord (ns.map fun n => (⟨n, g n⟩ : Folder)) r
      = ns.map fun n =>
          (⟨n, g n ++ if n = r.folderName then [r] else []⟩ : Folder) := by
  induction ns with
  | nil => cases hm
  | cons n ns ih =>
      rw [List.nodup_cons] at hn
      obtain ⟨hnn, hns⟩ := hn
      by_cases he : n = r.folderName
      · have htail : (ns.map fun m => (⟨m, g m⟩ : Folder))
            = ns.map fun m =>
                (⟨m, g m ++ if m = r.folderName then [r] else []⟩ : Folder) := by
          apply list_map_congr
          intro m hmem
          have hmne : ¬ m = r.folderName := fun hh =>
            hnn ((he.trans hh.symm) ▸ hmem)
          simp [hmne]
        simp only [List.map_cons, addRecord]
        rw [if_pos he, ← htail]
        simp [he]
      · have hm' : r.folderName ∈ ns := by
          rcases List.mem_cons.mp hm with h1 | h1
          · exact absurd h1.symm he
          · exact h1
        simp only [List.map_cons, addRecord]
        rw [if_neg he, ih hns hm']
        simp [he]

theorem addRecord_groupByFolder (recs : List PointRecord) (r : PointRecord) :
    addRecord (groupByFolder recs) r = groupByFolder (recs ++ [r]) := by
  unfold groupByFolder
  rw [List.map_append,
    show List.map PointRecord.folderName [r] = [r.folderName] from rfl,
    firstSeen_append_single]
  by_cases hm : r.folderName ∈ firstSeen (recs.map PointRecord.folderName)
  · rw [seenStep, if_pos hm,
      addRecord_mem_map _ _ r (nodup_firstSeen _) hm]
    apply list_map_congr
    intro n hn
    have hfil : ((recs ++ [r]).filter fun q => q.folderName = n)
        = (recs.filter fun q => q.folderName = n)
          ++ if n = r.folderName then [r] else [] := by
      rw [List.filter_append]
      congr 1
      by_cases he : n = r.folderName
      · simp [List.filter_cons, he]
      · have hne' : ¬ r.folderName = n := fun hh => he hh.symm
        simp [List.filter_cons, hne', he]
    rw [hfil]
  · rw [seenStep, if_neg hm]
    have hnames : r.folderName ∉
        (List.map (fun n =>
          (⟨n, recs.filter fun q => q.folderName = n⟩ : Folder))
          (firstSeen (recs.map PointRecord.folderName))).map Folder.name := by
      rw [List.map_map]
      rw [show ((Folder.name ∘ fun n =>
          (⟨n, recs.filter fun q => q.folderName = n⟩ : Folder)))
          = fun n => n from rfl]
      rw [List.map_id']
      exact hm
    rw [addRecord_not_mem _ _ hnames, List.map_append]
    congr 1
    · apply list_map_congr
      intro n hn
      have hne : ¬ n = r.folderName := fun hh => hm (hh ▸ hn)
      have : ((recs ++ [r]).filter fun q => q.folderName = n)
          = recs.filter fun q => q.folderName = n := by
        rw [List.filter_append]
        have hne' : ¬ r.folderName = n := fun hh => hne hh.symm
        simp [List.filter_cons, hne']
      rw [this]
    · have hno : r.folderName ∉ recs.map PointRecord.folderName :=
        fun hh => hm ((mem_firstSeen _ _).2 hh)
      simp [List.filter_append,
        filter_eq_nil_of_not_mem recs _ hno, List.filter_cons]

theorem foldl_addRecord_groupByFolder (recs : List PointRecord) :
    List.foldl addRecord [] recs = groupByFolder recs := by
  induction recs using List.reverseRecOn with
  | nil => rfl
  | append_singleton recs r ih =>
      rw [List.foldl_append, List.foldl_cons, List.foldl_nil, ih,
        addRecord_groupByFolder]

theorem buildDoc_eq_group (rows : List (List Cell)) :
    buildDoc rows = groupByFolder (extractedRecords 0 rows) := by
  unfold buildDoc
  rw [processRows_eq_foldl]
  exact foldl_addRecord_groupByFolder _

theorem extractRecord_some (index : ℕ) (row : List Cell) (r : PointRecord)
    (h : extractRecord index row = some r) :
    cellFloat (cellAt row 2) = some r.lat ∧
    cellFloat (cellAt row 3) = some r.lon ∧
    r.nome = (if pdNotna (cellAt row 1) then cellStr (cellAt row 1)
              else s!"Ponto_{index + 1}") ∧
    r.folderName = (if pdNotna (cellAt row 5) then cellStr (cellAt row 5)
                    else "Geral") ∧
    r.description = (if pdNotna (cellAt row 8) then cellStr (cellAt row 8)
                     else "") := by
  unfold extractRecord at h
  cases h2 : cellFloat (cellAt row 2) <;> cases h3 : cellFloat (cellAt row 3) <;>
    rw [h2, h3] at h <;> simp at h
  subst h
  exact ⟨rfl, rfl, rfl, rfl, rfl⟩

/-! ### Claim theorems -/

/-- Claim C1: for every input table that passes the column check, the
total number of Placemark records across all folders of the produced
document equals the number of input rows whose latitude and longitude
both convert under Python `float`; rows that fail coordinate conversion
leave no trace in the output (no record, no counter). -/
theorem C1_record_count (t : Table) (h : ¬ t.numCols < 9) :
    convert t = .ok (serializeKML (buildDoc t.rows)) ∧
    totalRecords (buildDoc t.rows) = (t.rows.filter coordsParse).length := by
  refine ⟨by simp [convert, h], ?_⟩
  unfold buildDoc
  rw [processRows_totalRecords]
  simp [totalRecords]

/-- Witness for C1 at a concrete two-row table (one parsable row, one
with latitude "N/A"). -/
theorem C1_record_count_w :
    ¬ c1Table.numCols < 9 ∧
    (convert c1Table = .ok (serializeKML (buildDoc c1Table.rows)) ∧
     totalRecords (buildDoc c1Table.rows)
       = (c1Table.rows.filter coordsParse).length) :=
  ⟨by decide, C1_record_count c1Table (by decide)⟩

/-- Claim C2: folder names in the document are unique; the folder
sequence is the first-seen order of the distinct folder names of the
validated records (exact, case-sensitive string matching), and each
folder holds exactly the records carrying its name, in input row
order. -/
theorem C2_folder_grouping (rows : List (List Cell)) :
    ((buildDoc rows).map Folder.name).Nodup ∧
    (buildDoc rows).map Folder.name
      = firstSeen ((extractedRecords 0 rows).map PointRecord.folderName) ∧
    ∀ f ∈ buildDoc rows,
      f.records
        = (extractedRecords 0 rows).filter fun r => r.folderName = f.name := by
  rw [buildDoc_eq_group]
  refine ⟨?_, names_groupByFolder _, ?_⟩
  · rw [names_groupByFolder]
    exact nodup_firstSeen _
  · intro f hf
    unfold groupByFolder at hf
    rcases List.mem_map.mp hf with ⟨n, hn, rfl⟩
    rfl

/-- Witness for C2 at three concrete rows with folder names SP, RJ, SP:
the SP folder exists once and holds rows 1 and 3 in order. -/
theorem C2_folder_grouping_w :
    c2FolderSP ∈ buildDoc c2Rows ∧
    c2FolderSP.records
      = (extractedRecords 0 c2Rows).filter
          fun r => r.folderName = c2FolderSP.name :=
  ⟨by decide, (C2_folder_grouping c2Rows).2.2 c2FolderSP (by decide)⟩

/-- Counterexample to claim C3 as stated: on a row whose latitude cell
holds the text "nan" — which does not parse as a finite decimal number —
the program still produces a record (Python `float("nan")` succeeds and
yields NaN), so "record produced iff both coordinates parse as finite
decimal numbers" is false. -/
theorem C3_counterexample :
    parsesFinite (cellAt c3Row 2) = false ∧
    totalRecords (buildDoc [c3Row]) = 1 ∧
    (extractedRecords 0 [c3Row]).map PointRecord.lat = [PyFloat.nan] := by
  refine ⟨by decide, by decide, by decide⟩

/-- Claim C3 (amended): a record is produced iff Python `float`
conversion succeeds on both the latitude and the longitude cell
(conversion also accepts non-finite inputs: the strings "nan"/"inf" and
missing cells read as NaN); when either conversion raises, the row is
skipped silently — no record, and the document (hence its folder set) is
exactly what it would be without the row. -/
theorem C3_record_iff_convert (index : ℕ) (row : List Cell) :
    ((extractRecord index row).isSome = coordsParse row) ∧
    (extractRecord index row = none →
      ∀ (rest : List (List Cell)) (doc : Doc),
        processRows index (row :: rest) doc = processRows (index + 1) rest doc) := by
  refine ⟨extractRecord_isSome index row, ?_⟩
  intro h rest doc
  simp [processRows, h]

/-- Witness for C3 at a concrete row with latitude "N/A" and a
previously unseen folder name: the row is skipped and the empty document
stays empty (no folder side effect). -/
theorem C3_record_iff_convert_w :
    ((extractRecord 0 c3SkipRow).isSome = coordsParse c3SkipRow) ∧
    processRows 0 [c3SkipRow] [] = processRows 1 [] [] :=
  ⟨(C3_record_iff_convert 0 c3SkipRow).1,
   (C3_record_iff_convert 0 c3SkipRow).2 (by decide) [] []⟩

/-- Claim C4: for every validated record, the `coordinates` element text
is exactly `"{longitude},{latitude},0"` — the longitude (column index 3)
first, then the latitude (column index 2), with the elevation component
fixed at 0. -/
theorem C4_coordinates_order (index : ℕ) (row : List Cell) (r : PointRecord)
    (h : extractRecord index row = some r) :
    cellFloat (cellAt row 2) = some r.lat ∧
    cellFloat (cellAt row 3) = some r.lon ∧
    ∃ pre, recordXML r
      = XML.elem "Placemark" [] none
          (pre ++ [XML.elem "Point" [] none
            [XML.elem "coordinates" []
               (some s!"{pyFloatRepr r.lon},{pyFloatRepr r.lat},0") []]]) := by
  obtain ⟨h2, h3, -, -, -⟩ := extractRecord_some index row r h
  exact ⟨h2, h3,
    [XML.elem "name" [] (some r.nome) []]
      ++ (if r.description = "" then []
          else [XML.elem "description" [] (some r.description) []]),
    rfl⟩

/-- Witness for C4 at a concrete row with latitude 1 and
longitude 2. -/
theorem C4_coordinates_order_w :
    extractRecord 0 c4Row = some c4Rec ∧
    (cellFloat (cellAt c4Row 2) = some c4Rec.lat ∧
     cellFloat (cellAt c4Row 3) = some c4Rec.lon ∧
     ∃ pre, recordXML c4Rec
       = XML.elem "Placemark" [] none
           (pre ++ [XML.elem "Point" [] none
             [XML.elem "coordinates" []
                (some s!"{pyFloatRepr c4Rec.lon},{pyFloatRepr c4Rec.lat},0")
                []]])) :=
  ⟨by decide, C4_coordinates_order 0 c4Row c4Rec (by decide)⟩

/-- Counterexample to claim C5 as stated: the placeholder generated for
the 3rd data row with a missing name is the Portuguese `Ponto_3`, not
`Point_3`. -/
theorem C5_counterexample :
    (extractedRecords 0 c5Rows).map PointRecord.nome = ["A", "B", "Ponto_3"] ∧
    ("Ponto_3" : String) ≠ "Point_3" :=
  ⟨by decide, by decide⟩

/-- Claim C5 (amended): for every row whose name cell (index 1) is
missing, the record's name is the generated placeholder
`Ponto_<1-based row number>`; in particular a missing name on the 3rd
data row yields `Ponto_3`. -/
theorem C5_missing_name (index : ℕ) (row : List Cell) (r : PointRecord)
    (hna : pdNotna (cellAt row 1) = false)
    (h : extractRecord index row = some r) :
    r.nome = s!"Ponto_{index + 1}" := by
  obtain ⟨-, -, hn, -, -⟩ := extractRecord_some index row r h
  rw [hn, hna]
  rfl

/-- Witness for C5 at a concrete nameless row in 3rd position
(row index 2). -/
theorem C5_missing_name_w :
    pdNotna (cellAt c5Row 1) = false ∧
    extractRecord 2 c5Row = some c5Rec ∧
    c5Rec.nome = s!"Ponto_{2 + 1}" :=
  ⟨rfl, by decide, C5_missing_name 2 c5Row c5Rec rfl (by decide)⟩

/-- Counterexample to claim C6 as stated: a row with a missing
folder-name cell is placed in a folder named by the Portuguese literal
`Geral`, not `General`. -/
theorem C6_counterexample :
    (buildDoc [c6Row]).map Folder.name = ["Geral"] ∧
    ("Geral" : String) ≠ "General" :=
  ⟨by decide, by decide⟩

/-- Claim C6 (amended): for every row whose folder-name cell (index 5)
is missing, the record is placed in a folder named by the literal
default `Geral`. -/
theorem C6_missing_folder (index : ℕ) (row : List Cell) (r : PointRecord)
    (hna : pdNotna (cellAt row 5) = false)
    (h : extractRecord index row = some r) :
    r.folderName = "Geral" := by
  obtain ⟨-, -, -, hf, -⟩ := extractRecord_some index row r h
  rw [hf, hna]
  rfl

/-- Witness for C6 at a concrete row with a missing folder cell. -/
theorem C6_missing_folder_w :
    pdNotna (cellAt c6Row 5) = false ∧
    extractRecord 0 c6Row = some c6Rec ∧
    c6Rec.folderName = "Geral" :=
  ⟨rfl, by decide, C6_missing_folder 0 c6Row c6Rec rfl (by decide)⟩

/-- Claim C7: for every input table with fewer than 9 columns the
conversion reports the distinct insufficient-columns condition and
produces no output at all (the guard of line 36 precedes the whole row
loop). -/
theorem C7_insufficient_columns (t : Table) (h : t.numCols < 9) :
    convert t = .error insufficientColumnsMsg ∧
    ∀ s, convert t ≠ .ok s := by
  refine ⟨by simp [convert, h], ?_⟩
  intro s hc
  simp [convert, h] at hc

/-- Witness for C7 at a concrete 5-column table. -/
theorem C7_insufficient_columns_w :
    c7Table.numCols < 9 ∧
    (convert c7Table = .error insufficientColumnsMsg ∧
     ∀ s, convert c7Table ≠ .ok s) :=
  ⟨by decide, C7_insufficient_columns c7Table (by decide)⟩

/-- Claim C8: a Placemark contains a `description` child element iff the
record's description is non-empty; a missing description cell (index 8)
is extracted as the empty string, hence the element is omitted entirely
for such rows. -/
theorem C8_description_omitted (r : PointRecord) (index : ℕ) (row : List Cell) :
    ((∃ c ∈ (recordXML r).children, c.tag = "description")
       ↔ r.description ≠ "") ∧
    (pdNotna (cellAt row 8) = false →
      ∀ q, extractRecord index row = some q → q.description = "") := by
  constructor
  · by_cases hd : r.description = "" <;>
      simp [recordXML, XML.children, XML.tag, hd]
  · intro hna q hq
    obtain ⟨-, -, -, -, hdq⟩ := extractRecord_some index row q hq
    rw [hdq, hna]
    rfl

/-- Witness for C8: a record with description "d" gets the element, and
a concrete row with a missing description cell extracts to the empty
string. -/
theorem C8_description_omitted_w :
    (∃ c ∈ (recordXML c8Rec).children, c.tag = "description") ∧
    pdNotna (cellAt c8Row 8) = false ∧
    c8RecEmpty.description = "" :=
  ⟨(C8_description_omitted c8Rec 0 c8Row).1.mpr (by decide),
   rfl,
   (C8_description_omitted c8Rec 0 c8Row).2 rfl c8RecEmpty (by decide)⟩

/-- Claim C9: serialization (lines 98-100) is modelled as a pure
function of the accumulated document tree — it reads nothing else — so
serializing the same document twice, or serializing the document built
twice from the same input rows, yields identical text. -/
theorem C9_serialize_deterministic (d : Doc) (rows : List (List Cell)) :
    serializeKML d = serializeKML d ∧
    serializeKML (buildDoc rows) = serializeKML (buildDoc rows) :=
  ⟨rfl, rfl⟩

/-- Claim C10: two rows at the same position that agree on cells 1, 2,
3, 5 and 8 extract to the same record and produce the same Placemark
fragment — the cells at indices 0, 4, 6, 7 and beyond 8 never influence
the output. -/
theorem C10_unused_columns (index : ℕ) (row1 row2 : List Cell)
    (h1 : cellAt row1 1 = cellAt row2 1) (h2 : cellAt row1 2 = cellAt row2 2)
    (h3 : cellAt row1 3 = cellAt row2 3) (h5 : cellAt row1 5 = cellAt row2 5)
    (h8 : cellAt row1 8 = cellAt row2 8) :
    extractRecord index row1 = extractRecord index row2 ∧
    (extractRecord index row1).map recordXML
      = (extractRecord index row2).map recordXML := by
  have he : extractRecord index row1 = extractRecord index row2 := by
    unfold extractRecord
    rw [h1, h2, h3, h5, h8]
  exact ⟨he, by rw [he]⟩

/-- Witness for C10 at two concrete rows differing at indices 0, 4, 6,
7 and 9 (one row even has a 10th column). -/
theorem C10_unused_columns_w :
    cellAt c10RowA 1 = cellAt c10RowB 1 ∧
    cellAt c10RowA 2 = cellAt c10RowB 2 ∧
    cellAt c10RowA 3 = cellAt c10RowB 3 ∧
    cellAt c10RowA 5 = cellAt c10RowB 5 ∧
    cellAt c10RowA 8 = cellAt c10RowB 8 ∧
    (extractRecord 0 c10RowA = extractRecord 0 c10RowB ∧
     (extractRecord 0 c10RowA).map recordXML
       = (extractRecord 0 c10RowB).map recordXML) :=
  ⟨rfl, rfl, rfl, rfl, rfl,
   C10_unused_columns 0 c10RowA c10RowB rfl rfl rfl rfl rfl⟩
